import Mathlib

/-!
Verification of the School-Management-System service (src/server.js and the
HTTPS variant in src/unnamed/part_000) against its specification.

The service is four Express route handlers over a MySQL `students` table and
a `notifications` table, plus an outbound email call.  We embed it shallowly:

* the database is a `DBState` record holding the two tables and the
  auto-increment counter for `students.id`;
* a JSON body field is an `Option JVal` (`none` = absent key); `JVal` covers
  the string and integer primitives the handlers inspect, and JavaScript
  truthiness (`if (!x)`) becomes `truthyOpt`;
* the outcome of `sendEmail` (the code collapses every transport error to the
  boolean `false`) is passed to each handler as an explicit `emailOk : Bool`
  oracle, and `NOW()` as an explicit `now : Nat`;
* each handler returns the new `DBState` together with a `Response`
  (HTTP status plus the JSON message/error text).
-/

namespace SMS

/-- A JSON primitive as the route handlers see it: a string or an integer. -/
inductive JVal where
  | jstr (s : String)
  | jnum (n : Int)
deriving DecidableEq, Repr

/-- JavaScript truthiness of a primitive: `""` and `0` are falsy. -/
def JVal.truthy : JVal → Bool
  | JVal.jstr s => !s.isEmpty
  | JVal.jnum n => !(n == 0)

/-- Truthiness of a possibly-absent body field: a missing key is falsy. -/
def truthyOpt : Option JVal → Bool
  | none => false
  | some v => JVal.truthy v

/-- JavaScript string coercion, as applied by `regex.test` and by binding a
value into an SQL text parameter. -/
def JVal.toStr : JVal → String
  | JVal.jstr s => s
  | JVal.jnum n => toString n

/-- String coercion of a possibly-absent field (`String(undefined)`). -/
def jToString : Option JVal → String
  | some v => JVal.toStr v
  | none => "undefined"

/-- The characters matched by `\s` in a JavaScript regular expression. -/
def jsSpace (c : Char) : Bool :=
  c = ' ' || c = '\t' || c = '\n' || c = '\u000B' || c = '\u000C' || c = '\r' ||
  c = '\u00A0' || c = '\u1680' || ('\u2000' ≤ c && c ≤ '\u200A') ||
  c = '\u2028' || c = '\u2029' || c = '\u202F' || c = '\u205F' ||
  c = '\u3000' || c = '\uFEFF'

/-- Split a character list at every occurrence of `sep` (the pieces keep
their order and drop the separators, as `String.prototype.split` would). -/
def splitOnChar (sep : Char) : List Char → List (List Char)
  | [] => [[]]
  | c :: cs =>
      match splitOnChar sep cs with
      | [] => [[c]]
      | r :: rs => if c = sep then [] :: r :: rs else (c :: r) :: rs

/-- `isValidEmail` from src/server.js lines 52-55: whether the whole string
matches `^[^\s@]+@[^\s@]+\.[^\s@]+$`.  A string matches exactly when it has a
single `@`, a nonempty space-free part before it, and a space-free part after
it containing a `.` with at least one character on each side (the character
class `[^\s@]` admits further dots).  We realise that characterisation: split
on `@` into exactly two parts, require the first nonempty and space-free, the
second space-free with a dot at an interior position. -/
def isValidEmail (email : String) : Bool :=
  match splitOnChar '@' email.data with
  | [locPart, domPart] =>
      !locPart.isEmpty &&
      locPart.all (fun c => !jsSpace c) &&
      domPart.all (fun c => !jsSpace c) &&
      ((domPart.drop 1).dropLast.contains '.')
  | _ => false

/-- A row of the `students` table. -/
structure Student where
  id : Int
  name : String
  email : String
  request_type : String
  request_ready : Bool
deriving DecidableEq, Repr

/-- A row of the `notifications` table. -/
structure Notification where
  student_id : Int
  email_sent : Bool
  sent_at : Nat
  request_type : String
deriving DecidableEq, Repr

/-- The persistent state: both tables plus the auto-increment counter that
generates `students.id`. -/
structure DBState where
  students : List Student
  notifications : List Notification
  nextId : Int
deriving DecidableEq, Repr

/-- An HTTP response: status code and the JSON `message`/`error` text. -/
structure Response where
  status : Nat
  body : String
deriving DecidableEq, Repr

/-- MySQL numeric coercion of the `student_id` body value when bound into
`WHERE id = ?` or the `notifications.student_id` column: numbers pass
through, numeric strings are parsed, anything else coerces to 0. -/
def coerceId : Option JVal → Int
  | some (JVal.jnum n) => n
  | some (JVal.jstr s) => (s.toInt?).getD 0
  | none => 0

/-- Whether the request's `student_id` selects the row with id `i`. -/
def idMatches (v : Option JVal) (i : Int) : Bool :=
  coerceId v == i

/-- `["transcript", "recommendation_letter"].includes(request_type)`:
`Array.includes` uses strict equality, so only those two exact strings pass. -/
def validType (v : Option JVal) : Bool :=
  decide (v = some (JVal.jstr "transcript")) ||
  decide (v = some (JVal.jstr "recommendation_letter"))

/-- POST /add-student (src/server.js lines 70-89).  Validates presence
(truthiness), email format and request type; rejects a duplicate
(email, request_type) pair; otherwise inserts the row with
`request_ready = FALSE`, then attempts the confirmation email: on email
failure it answers 500 with the row already persisted, on success 201. -/
def addStudent (db : DBState) (name email request_type : Option JVal)
    (emailOk : Bool) : DBState × Response :=
  if !(truthyOpt name && truthyOpt email && truthyOpt request_type) then
    (db, ⟨400, "Name, email, and request type are required"⟩)
  else if !isValidEmail (jToString email) then
    (db, ⟨400, "Invalid email format"⟩)
  else if !validType request_type then
    (db, ⟨400, "Invalid request type."⟩)
  else if db.students.any (fun s =>
      s.email == jToString email && s.request_type == jToString request_type) then
    (db, ⟨400, "Request already exists for this student."⟩)
  else
    let st : Student :=
      ⟨db.nextId, jToString name, jToString email, jToString request_type, false⟩
    let db1 : DBState := ⟨db.students ++ [st], db.notifications, db.nextId + 1⟩
    if !emailOk then (db1, ⟨500, "Email service unavailable."⟩)
    else (db1, ⟨201, "Student added and confirmation email sent!"⟩)

/-- GET /students (src/server.js lines 92-100): `SELECT * FROM students`. -/
def getStudents (db : DBState) : List Student :=
  db.students

/-- POST /mark-ready (src/server.js lines 103-126).  Requires a truthy
`student_id`; 404 when no row has that id; otherwise sets `request_ready =
TRUE` on every row matched by `WHERE id = ?`, sends the ready email, and only
on email success inserts the notification row (on failure it answers 500 with
the flag already flipped and no notification written). -/
def markReady (db : DBState) (student_id : Option JVal) (emailOk : Bool)
    (now : Nat) : DBState × Response :=
  if !truthyOpt student_id then
    (db, ⟨400, "Student ID is required"⟩)
  else
    match db.students.find? (fun s => idMatches student_id s.id) with
    | none => (db, ⟨404, "Student not found"⟩)
    | some st =>
      let students1 := db.students.map (fun s =>
        if idMatches student_id s.id then { s with request_ready := true } else s)
      if !emailOk then
        (⟨students1, db.notifications, db.nextId⟩, ⟨500, "Failed to send email."⟩)
      else
        (⟨students1,
          db.notifications ++ [⟨coerceId student_id, true, now, st.request_type⟩],
          db.nextId⟩,
         ⟨200, "Request marked as ready, email sent, and notification logged!"⟩)

/-- DELETE /delete-student (src/server.js lines 130-152).  Requires a truthy
`student_id`; 404 when no row has that id; otherwise removes every row matched
by `WHERE id = ?` and answers 200. -/
def deleteStudent (db : DBState) (student_id : Option JVal) :
    DBState × Response :=
  if !truthyOpt student_id then
    (db, ⟨400, "Student ID is required"⟩)
  else
    match db.students.find? (fun s => idMatches student_id s.id) with
    | none => (db, ⟨404, "Student not found"⟩)
    | some _ =>
      (⟨db.students.filter (fun s => !idMatches student_id s.id),
        db.notifications, db.nextId⟩,
       ⟨200, "Student deleted successfully!"⟩)

/-- One client operation against the service. -/
inductive Op where
  | register (name email request_type : Option JVal) (emailOk : Bool)
  | list
  | ready (student_id : Option JVal) (emailOk : Bool) (now : Nat)
  | delete (student_id : Option JVal)
deriving DecidableEq, Repr

/-- The state reached after one operation (GET /students reads only). -/
def stepOp (db : DBState) : Op → DBState
  | Op.register n e r ok => (addStudent db n e r ok).1
  | Op.list => db
  | Op.ready sid ok now => (markReady db sid ok now).1
  | Op.delete sid => (deleteStudent db sid).1

/-- The state reached after a sequence of operations, run left to right. -/
def runOps (db : DBState) : List Op → DBState
  | [] => db
  | op :: rest => runOps (stepOp db op) rest

/-- Whether two student rows collide on the (email, request_type) pair. -/
def samePair (a b : Student) : Bool :=
  a.email == b.email && a.request_type == b.request_type

/-- The spec's table invariant: at most one row per (email, request_type). -/
def uniquePairsB : List Student → Bool
  | [] => true
  | s :: rest => rest.all (fun t => !samePair s t) && uniquePairsB rest

/-- A concrete state used to witness the theorems: Alice (id 1, transcript,
not ready) and Bob (id 2, recommendation letter, already ready). -/
def dbEx : DBState :=
  ⟨[⟨1, "Alice", "a@b.com", "transcript", false⟩,
    ⟨2, "Bob", "b@c.com", "recommendation_letter", true⟩], [], 3⟩

/-- A row of the updated table that the request selects has its ready flag
set: membership in the mapped list plus an id match forces the then-branch. -/
theorem mem_map_ready (sid : Option JVal) (l : List Student) (s : Student)
    (hs : s ∈ l.map (fun t =>
      if idMatches sid t.id then { t with request_ready := true } else t))
    (hid : idMatches sid s.id = true) : s.request_ready = true := by
  rcases List.mem_map.mp hs with ⟨a, _, ha⟩
  by_cases h : idMatches sid a.id
  · simp only [if_pos h] at ha
    rw [← ha]
  · simp only [if_neg h] at ha
    subst ha
    exact absurd hid h

/-! ## Theorems -/

/-- Claim C7: an add-student body missing name, email, or request_type gets
400 "Name, email, and request type are required" and nothing else happens:
the state is returned unchanged and the answer does not depend on the email
oracle, so no database write or email send is performed. -/
theorem C7_missing_fields (db : DBState) (name email request_type : Option JVal)
    (emailOk : Bool)
    (h : name = none ∨ email = none ∨ request_type = none) :
    addStudent db name email request_type emailOk =
      (db, ⟨400, "Name, email, and request type are required"⟩) := by
  rcases h with h | h | h <;> subst h <;> simp [addStudent, truthyOpt]

/-- Witness for C7 at a concrete input: name absent. -/
theorem C7_missing_fields_witness :
    addStudent dbEx none (some (JVal.jstr "a@b.com"))
        (some (JVal.jstr "transcript")) true =
      (dbEx, ⟨400, "Name, email, and request type are required"⟩) :=
  C7_missing_fields dbEx none (some (JVal.jstr "a@b.com"))
    (some (JVal.jstr "transcript")) true (Or.inl rfl)

/-- Claim C9: the handlers test JavaScript falsiness, not key presence.  An
add-student field that is present but the empty string still draws the
missing-field 400, and a mark-ready or delete-student call whose student_id
is present but 0 or the empty string draws 400 "Student ID is required"
(never reaching the 404 lookup), with the state unchanged in every case. -/
theorem C9_falsy_present_fields (db : DBState) (emailOk : Bool) (now : Nat) :
    (∀ name email request_type : Option JVal,
        name = some (JVal.jstr "") ∨ email = some (JVal.jstr "") ∨
          request_type = some (JVal.jstr "") →
        addStudent db name email request_type emailOk =
          (db, ⟨400, "Name, email, and request type are required"⟩)) ∧
    (∀ student_id : Option JVal,
        student_id = some (JVal.jnum 0) ∨ student_id = some (JVal.jstr "") →
        markReady db student_id emailOk now =
          (db, ⟨400, "Student ID is required"⟩) ∧
        deleteStudent db student_id = (db, ⟨400, "Student ID is required"⟩)) := by
  have he : ("" : String).isEmpty = true := by decide
  constructor
  · intro name email request_type h
    rcases h with h | h | h <;> subst h <;>
      simp [addStudent, truthyOpt, JVal.truthy, he]
  · intro student_id h
    rcases h with h | h <;> subst h <;>
      exact ⟨by simp [markReady, truthyOpt, JVal.truthy, he],
             by simp [deleteStudent, truthyOpt, JVal.truthy, he]⟩

/-- Witness for C9 at concrete inputs: empty-string email on add-student and
student_id 0 on mark-ready and delete-student. -/
theorem C9_falsy_present_fields_witness :
    addStudent dbEx (some (JVal.jstr "Alice")) (some (JVal.jstr ""))
        (some (JVal.jstr "transcript")) true =
      (dbEx, ⟨400, "Name, email, and request type are required"⟩) ∧
    markReady dbEx (some (JVal.jnum 0)) true 0 =
      (dbEx, ⟨400, "Student ID is required"⟩) ∧
    deleteStudent dbEx (some (JVal.jnum 0)) =
      (dbEx, ⟨400, "Student ID is required"⟩) :=
  ⟨(C9_falsy_present_fields dbEx true 0).1 (some (JVal.jstr "Alice"))
      (some (JVal.jstr "")) (some (JVal.jstr "transcript")) (Or.inr (Or.inl rfl)),
   ((C9_falsy_present_fields dbEx true 0).2 (some (JVal.jnum 0)) (Or.inl rfl)).1,
   ((C9_falsy_present_fields dbEx true 0).2 (some (JVal.jnum 0)) (Or.inl rfl)).2⟩

/-- Claim C8: with all three fields present (truthy), an email that fails the
pattern draws 400 "Invalid email format" with the state unchanged, and a
well-formed email with a request_type other than "transcript" or
"recommendation_letter" draws 400 "Invalid request type.". -/
theorem C8_email_and_type_validation (db : DBState)
    (name email request_type : Option JVal) (emailOk : Bool)
    (h1 : truthyOpt name = true) (h2 : truthyOpt email = true)
    (h3 : truthyOpt request_type = true) :
    (isValidEmail (jToString email) = false →
        addStudent db name email request_type emailOk =
          (db, ⟨400, "Invalid email format"⟩)) ∧
    (isValidEmail (jToString email) = true →
        request_type ≠ some (JVal.jstr "transcript") →
        request_type ≠ some (JVal.jstr "recommendation_letter") →
        addStudent db name email request_type emailOk =
          (db, ⟨400, "Invalid request type."⟩)) := by
  constructor
  · intro hv
    simp [addStudent, h1, h2, h3, hv]
  · intro hv ht hr
    have hvt : validType request_type = false := by
      simp [validType, ht, hr]
    simp [addStudent, h1, h2, h3, hv, hvt]

/-- Witness for C8 at concrete inputs: email without a dot, then a valid
email with the unknown request type "diploma". -/
theorem C8_email_and_type_validation_witness :
    addStudent dbEx (some (JVal.jstr "Carol")) (some (JVal.jstr "c@d"))
        (some (JVal.jstr "transcript")) true =
      (dbEx, ⟨400, "Invalid email format"⟩) ∧
    addStudent dbEx (some (JVal.jstr "Carol")) (some (JVal.jstr "c@d.com"))
        (some (JVal.jstr "diploma")) true =
      (dbEx, ⟨400, "Invalid request type."⟩) :=
  ⟨(C8_email_and_type_validation dbEx (some (JVal.jstr "Carol"))
      (some (JVal.jstr "c@d")) (some (JVal.jstr "transcript")) true
      (by decide) (by decide) (by decide)).1 (by decide),
   (C8_email_and_type_validation dbEx (some (JVal.jstr "Carol"))
      (some (JVal.jstr "c@d.com")) (some (JVal.jstr "diploma")) true
      (by decide) (by decide) (by decide)).2 (by decide)
      (by decide) (by decide)⟩

/-- Claim C4: a register call that passes validation but whose
(email, request_type) pair already has a row answers 400 "Request already
exists for this student." and returns the state unchanged, so no second row
is inserted; the answer does not depend on the email oracle, so no email is
sent. -/
theorem C4_duplicate_pair_rejected (db : DBState)
    (name email request_type : Option JVal) (emailOk : Bool)
    (h1 : truthyOpt name = true) (h2 : truthyOpt email = true)
    (h3 : truthyOpt request_type = true)
    (h4 : isValidEmail (jToString email) = true)
    (h5 : validType request_type = true)
    (h6 : db.students.any (fun s =>
        s.email == jToString email &&
        s.request_type == jToString request_type) = true) :
    addStudent db name email request_type emailOk =
      (db, ⟨400, "Request already exists for this student."⟩) := by
  simp [addStudent, h1, h2, h3, h4, h5, h6]

/-- Witness for C4 at a concrete input: registering the Alice/transcript
pair of dbEx again. -/
theorem C4_duplicate_pair_rejected_witness :
    addStudent dbEx (some (JVal.jstr "Alice")) (some (JVal.jstr "a@b.com"))
        (some (JVal.jstr "transcript")) true =
      (dbEx, ⟨400, "Request already exists for this student."⟩) :=
  C4_duplicate_pair_rejected dbEx (some (JVal.jstr "Alice"))
    (some (JVal.jstr "a@b.com")) (some (JVal.jstr "transcript")) true
    (by decide) (by decide) (by decide) (by decide) (by decide) (by decide)

/-- Claim C3: a register call that passes validation with no existing
(email, request_type) row, whose confirmation email then fails, answers 500
"Email service unavailable." even though the new row (request_ready = false)
was already inserted and stays in the table: the insert is not rolled back. -/
theorem C3_insert_persists_on_email_failure (db : DBState)
    (name email request_type : Option JVal)
    (h1 : truthyOpt name = true) (h2 : truthyOpt email = true)
    (h3 : truthyOpt request_type = true)
    (h4 : isValidEmail (jToString email) = true)
    (h5 : validType request_type = true)
    (h6 : db.students.any (fun s =>
        s.email == jToString email &&
        s.request_type == jToString request_type) = false) :
    (addStudent db name email request_type false).2 =
      ⟨500, "Email service unavailable."⟩ ∧
    (addStudent db name email request_type false).1.students =
      db.students ++ [⟨db.nextId, jToString name, jToString email,
        jToString request_type, false⟩] ∧
    (⟨db.nextId, jToString name, jToString email, jToString request_type,
        false⟩ : Student) ∈ (addStudent db name email request_type false).1.students := by
  refine ⟨?_, ?_, ?_⟩ <;> simp [addStudent, h1, h2, h3, h4, h5, h6]

/-- Witness for C3 at a concrete input: registering Carol with the email
send failing; the 500 is returned and the row is present. -/
theorem C3_insert_persists_on_email_failure_witness :
    (addStudent dbEx (some (JVal.jstr "Carol")) (some (JVal.jstr "c@d.com"))
        (some (JVal.jstr "transcript")) false).2 =
      ⟨500, "Email service unavailable."⟩ ∧
    (addStudent dbEx (some (JVal.jstr "Carol")) (some (JVal.jstr "c@d.com"))
        (some (JVal.jstr "transcript")) false).1.students =
      dbEx.students ++ [⟨3, "Carol", "c@d.com", "transcript", false⟩] ∧
    (⟨3, "Carol", "c@d.com", "transcript", false⟩ : Student) ∈
      (addStudent dbEx (some (JVal.jstr "Carol")) (some (JVal.jstr "c@d.com"))
        (some (JVal.jstr "transcript")) false).1.students :=
  C3_insert_persists_on_email_failure dbEx (some (JVal.jstr "Carol"))
    (some (JVal.jstr "c@d.com")) (some (JVal.jstr "transcript"))
    (by decide) (by decide) (by decide) (by decide) (by decide) (by decide)


/-- Claim C1: mark-ready on an id with no row answers 404 "Student not
found" with the state unchanged; on an existing row the ready flag of every
selected row becomes true, and the notification row (that student_id,
email_sent = true, the student's request_type) is appended iff the email
send succeeds: on failure the response is 500, the flag is already flipped
and no notification row is written. -/
theorem C1_markReady_spec (db : DBState) (student_id : Option JVal)
    (emailOk : Bool) (now : Nat) (htr : truthyOpt student_id = true) :
    (db.students.find? (fun s => idMatches student_id s.id) = none →
        markReady db student_id emailOk now =
          (db, ⟨404, "Student not found"⟩)) ∧
    (∀ st, db.students.find? (fun s => idMatches student_id s.id) = some st →
        coerceId student_id = st.id ∧
        (markReady db student_id emailOk now).1.students =
          db.students.map (fun s =>
            if idMatches student_id s.id then { s with request_ready := true }
            else s) ∧
        (∀ s, s ∈ (markReady db student_id emailOk now).1.students →
            idMatches student_id s.id = true → s.request_ready = true) ∧
        (markReady db student_id emailOk now).1.notifications =
          (if emailOk then
            db.notifications ++
              [⟨coerceId student_id, true, now, st.request_type⟩]
          else db.notifications) ∧
        (markReady db student_id emailOk now).2 =
          (if emailOk then
            ⟨200, "Request marked as ready, email sent, and notification logged!"⟩
          else ⟨500, "Failed to send email."⟩)) := by
  constructor
  · intro hf
    simp [markReady, htr, hf]
  · intro st hf
    have hid : coerceId student_id = st.id := by
      have hp := List.find?_some hf
      simpa [idMatches] using hp
    refine ⟨hid, ?_, ?_, ?_, ?_⟩
    · cases emailOk <;> simp [markReady, htr, hf]
    · intro s hs hmatch
      refine mem_map_ready student_id db.students s ?_ hmatch
      cases emailOk <;> simpa [markReady, htr, hf] using hs
    · cases emailOk <;> simp [markReady, htr, hf]
    · cases emailOk <;> simp [markReady, htr, hf]

/-- Witness for C1 at a concrete input: mark-ready on the absent id 9
returns 404 and leaves dbEx unchanged. -/
theorem C1_markReady_spec_witness :
    markReady dbEx (some (JVal.jnum 9)) true 0 =
      (dbEx, ⟨404, "Student not found"⟩) :=
  (C1_markReady_spec dbEx (some (JVal.jnum 9)) true 0 (by decide)).1 (by decide)

/-- Claim C10: mark-ready never inspects the current ready flag.  On a row
already marked ready, a further call with a successful email send answers
200 again, keeps the flag true, and appends one more notification row, so
repeated calls accumulate rows for the same student_id. -/
theorem C10_markReady_repeats (db : DBState) (student_id : Option JVal)
    (now : Nat) (st : Student)
    (htr : truthyOpt student_id = true)
    (hf : db.students.find? (fun s => idMatches student_id s.id) = some st)
    (_hready : st.request_ready = true) :
    (markReady db student_id true now).2 =
      ⟨200, "Request marked as ready, email sent, and notification logged!"⟩ ∧
    (∀ s, s ∈ (markReady db student_id true now).1.students →
        idMatches student_id s.id = true → s.request_ready = true) ∧
    (markReady db student_id true now).1.notifications =
      db.notifications ++ [⟨coerceId student_id, true, now, st.request_type⟩] ∧
    ((markReady db student_id true now).1.notifications.filter
        (fun nr => nr.student_id == coerceId student_id)).length =
      (db.notifications.filter
        (fun nr => nr.student_id == coerceId student_id)).length + 1 := by
  refine ⟨?_, ?_, ?_, ?_⟩
  · simp [markReady, htr, hf]
  · intro s hs hmatch
    refine mem_map_ready student_id db.students s ?_ hmatch
    simpa [markReady, htr, hf] using hs
  · simp [markReady, htr, hf]
  · simp [markReady, htr, hf, List.filter_append]

/-- Witness for C10 at a concrete input: Bob (id 2) is already ready in
dbEx; a further successful mark-ready answers 200 and logs one more
notification row for id 2. -/
theorem C10_markReady_repeats_witness :
    (markReady dbEx (some (JVal.jnum 2)) true 5).2 =
      ⟨200, "Request marked as ready, email sent, and notification logged!"⟩ ∧
    (∀ s, s ∈ (markReady dbEx (some (JVal.jnum 2)) true 5).1.students →
        idMatches (some (JVal.jnum 2)) s.id = true → s.request_ready = true) ∧
    (markReady dbEx (some (JVal.jnum 2)) true 5).1.notifications =
      dbEx.notifications ++ [⟨2, true, 5, "recommendation_letter"⟩] ∧
    ((markReady dbEx (some (JVal.jnum 2)) true 5).1.notifications.filter
        (fun nr => nr.student_id == coerceId (some (JVal.jnum 2)))).length =
      (dbEx.notifications.filter
        (fun nr => nr.student_id == coerceId (some (JVal.jnum 2)))).length + 1 :=
  C10_markReady_repeats dbEx (some (JVal.jnum 2)) 5
    ⟨2, "Bob", "b@c.com", "recommendation_letter", true⟩
    (by decide) (by decide) (by decide)

/-- Claim C5: delete-student on an id with no row answers 404 "Student not
found" with the table unchanged; on an existing row it answers 200, the
selected rows are gone from a subsequent GET /students, every other row is
still present, and the notifications table is untouched. -/
theorem C5_deleteStudent_spec (db : DBState) (student_id : Option JVal)
    (htr : truthyOpt student_id = true) :
    (db.students.find? (fun s => idMatches student_id s.id) = none →
        deleteStudent db student_id = (db, ⟨404, "Student not found"⟩)) ∧
    (∀ st, db.students.find? (fun s => idMatches student_id s.id) = some st →
        (deleteStudent db student_id).2 = ⟨200, "Student deleted successfully!"⟩ ∧
        getStudents (deleteStudent db student_id).1 =
          db.students.filter (fun s => !idMatches student_id s.id) ∧
        (∀ s, s ∈ getStudents (deleteStudent db student_id).1 →
            idMatches student_id s.id = false) ∧
        (∀ s, s ∈ db.students → idMatches student_id s.id = false →
            s ∈ getStudents (deleteStudent db student_id).1) ∧
        (deleteStudent db student_id).1.notifications = db.notifications) := by
  constructor
  · intro hf
    simp [deleteStudent, htr, hf]
  · intro st hf
    refine ⟨?_, ?_, ?_, ?_, ?_⟩
    · simp [deleteStudent, htr, hf]
    · simp [deleteStudent, getStudents, htr, hf]
    · intro s hs
      have hs' : s ∈ db.students.filter (fun s => !idMatches student_id s.id) := by
        simpa [deleteStudent, getStudents, htr, hf] using hs
      have := (List.mem_filter.mp hs').2
      simpa using this
    · intro s hmem hdiff
      have : s ∈ db.students.filter (fun s => !idMatches student_id s.id) :=
        List.mem_filter.mpr ⟨hmem, by simp [hdiff]⟩
      simpa [deleteStudent, getStudents, htr, hf] using this
    · simp [deleteStudent, htr, hf]

/-- Witness for C5 at concrete inputs: deleting the absent id 9 gives 404;
deleting Alice (id 1) gives 200 and a GET /students that no longer lists
her while Bob is still present. -/
theorem C5_deleteStudent_spec_witness :
    deleteStudent dbEx (some (JVal.jnum 9)) =
      (dbEx, ⟨404, "Student not found"⟩) ∧
    (deleteStudent dbEx (some (JVal.jnum 1))).2 =
      ⟨200, "Student deleted successfully!"⟩ ∧
    getStudents (deleteStudent dbEx (some (JVal.jnum 1))).1 =
      dbEx.students.filter (fun s => !idMatches (some (JVal.jnum 1)) s.id) :=
  ⟨(C5_deleteStudent_spec dbEx (some (JVal.jnum 9)) (by decide)).1 (by decide),
   ((C5_deleteStudent_spec dbEx (some (JVal.jnum 1)) (by decide)).2
      ⟨1, "Alice", "a@b.com", "transcript", false⟩ (by decide)).1,
   ((C5_deleteStudent_spec dbEx (some (JVal.jnum 1)) (by decide)).2
      ⟨1, "Alice", "a@b.com", "transcript", false⟩ (by decide)).2.1⟩


/-- If no element of the list satisfies `p`, every element satisfies its
negation. -/
theorem all_not_of_any_eq_false {α : Type} (p : α → Bool) :
    ∀ l : List α, l.any p = false → l.all (fun t => !p t) = true
  | [], _ => rfl
  | x :: xs, h => by
      simp only [List.any_cons, Bool.or_eq_false_iff] at h
      have ih := all_not_of_any_eq_false p xs h.2
      simp [List.all_cons, h.1, ih]

/-- `all` survives filtering. -/
theorem all_filter_of_all {α : Type} (p q : α → Bool) :
    ∀ l : List α, l.all q = true → (l.filter p).all q = true
  | [], _ => rfl
  | x :: xs, h => by
      simp only [List.all_cons, Bool.and_eq_true] at h
      have ih := all_filter_of_all p q xs h.2
      by_cases hp : p x = true <;>
        simp [List.filter_cons, hp, List.all_cons, h.1, ih]

/-- Appending a row that collides with no existing row keeps the
(email, request_type) pairs pairwise distinct. -/
theorem uniquePairsB_append_singleton (st : Student) :
    ∀ l : List Student, uniquePairsB l = true →
      l.all (fun t => !samePair t st) = true →
      uniquePairsB (l ++ [st]) = true
  | [], _, _ => rfl
  | x :: xs, hu, hnew => by
      simp only [uniquePairsB, Bool.and_eq_true] at hu
      simp only [List.all_cons, Bool.and_eq_true] at hnew
      have ih := uniquePairsB_append_singleton st xs hu.2 hnew.2
      simp only [List.cons_append, uniquePairsB, List.append_eq,
        List.all_append, List.all_cons, List.all_nil, Bool.and_true,
        Bool.and_eq_true]
      exact ⟨⟨hu.1, hnew.1⟩, ih⟩

/-- Setting ready flags changes no (email, request_type) pair of any row. -/
theorem samePair_ready_invariant (sid : Option JVal) (a b : Student) :
    samePair (if idMatches sid a.id then { a with request_ready := true } else a)
        (if idMatches sid b.id then { b with request_ready := true } else b) =
      samePair a b := by
  by_cases ha : idMatches sid a.id = true <;>
    by_cases hb : idMatches sid b.id = true <;>
      simp [ha, hb, samePair]

/-- The mark-ready update keeps the pairs pairwise distinct. -/
theorem uniquePairsB_map_ready (sid : Option JVal) :
    ∀ l : List Student, uniquePairsB l = true →
      uniquePairsB (l.map (fun s =>
        if idMatches sid s.id then { s with request_ready := true } else s)) = true
  | [], _ => rfl
  | x :: xs, hu => by
      simp only [uniquePairsB, Bool.and_eq_true] at hu
      have ih := uniquePairsB_map_ready sid xs hu.2
      simp only [List.map_cons, uniquePairsB, List.all_map, Bool.and_eq_true]
      refine ⟨?_, ih⟩
      have hx := hu.1
      simp only [Function.comp_def, samePair_ready_invariant]
      exact hx

/-- Deleting rows keeps the pairs pairwise distinct. -/
theorem uniquePairsB_filter (p : Student → Bool) :
    ∀ l : List Student, uniquePairsB l = true →
      uniquePairsB (l.filter p) = true
  | [], _ => rfl
  | x :: xs, hu => by
      simp only [uniquePairsB, Bool.and_eq_true] at hu
      have ih := uniquePairsB_filter p xs hu.2
      by_cases hp : p x = true
      · simp only [List.filter_cons, hp, if_pos, uniquePairsB,
          Bool.and_eq_true]
        exact ⟨all_filter_of_all p _ xs hu.1, ih⟩
      · simp [List.filter_cons, hp, ih]

/-- Each operation preserves the at-most-one-row-per-pair invariant. -/
theorem stepOp_preserves_uniquePairs (db : DBState) (op : Op)
    (h : uniquePairsB db.students = true) :
    uniquePairsB (stepOp db op).students = true := by
  cases op with
  | list => exact h
  | register name email request_type emailOk =>
      by_cases h1 : (truthyOpt name && truthyOpt email &&
          truthyOpt request_type) = true
      case neg =>
        rw [Bool.not_eq_true] at h1
        simpa [stepOp, addStudent, h1] using h
      case pos =>
        by_cases h2 : isValidEmail (jToString email) = true
        case neg =>
          rw [Bool.not_eq_true] at h2
          simpa [stepOp, addStudent, h1, h2] using h
        case pos =>
          by_cases h3 : validType request_type = true
          case neg =>
            rw [Bool.not_eq_true] at h3
            simpa [stepOp, addStudent, h1, h2, h3] using h
          case pos =>
            by_cases h4 : db.students.any (fun s =>
                s.email == jToString email &&
                s.request_type == jToString request_type) = true
            case pos =>
              simpa [stepOp, addStudent, h1, h2, h3, h4] using h
            case neg =>
              rw [Bool.not_eq_true] at h4
              have hall := all_not_of_any_eq_false _ db.students h4
              have hgoal : uniquePairsB (db.students ++
                  [⟨db.nextId, jToString name, jToString email,
                    jToString request_type, false⟩]) = true := by
                refine uniquePairsB_append_singleton _ db.students h ?_
                simpa [samePair] using hall
              cases emailOk <;>
                simpa [stepOp, addStudent, h1, h2, h3, h4] using hgoal
  | ready student_id emailOk now =>
      by_cases ht : truthyOpt student_id = true
      case neg =>
        rw [Bool.not_eq_true] at ht
        simpa [stepOp, markReady, ht] using h
      case pos =>
        cases hf : db.students.find? (fun s => idMatches student_id s.id) with
        | none => simpa [stepOp, markReady, ht, hf] using h
        | some st =>
            have := uniquePairsB_map_ready student_id db.students h
            cases emailOk <;> simpa [stepOp, markReady, ht, hf] using this
  | delete student_id =>
      by_cases ht : truthyOpt student_id = true
      case neg =>
        rw [Bool.not_eq_true] at ht
        simpa [stepOp, deleteStudent, ht] using h
      case pos =>
        cases hf : db.students.find? (fun s => idMatches student_id s.id) with
        | none => simpa [stepOp, deleteStudent, ht, hf] using h
        | some st =>
            have := uniquePairsB_filter
              (fun s => !idMatches student_id s.id) db.students h
            simpa [stepOp, deleteStudent, ht, hf] using this

/-- Claim C2: starting from a students table with at most one row per
(email, request_type) pair, any sequence of register, list, mark-ready and
delete operations, run sequentially, leaves the table with at most one row
per pair. -/
theorem C2_unique_pair_invariant (db : DBState) (ops : List Op)
    (h : uniquePairsB db.students = true) :
    uniquePairsB (runOps db ops).students = true := by
  induction ops generalizing db with
  | nil => exact h
  | cons op rest ih =>
      exact ih (stepOp db op) (stepOp_preserves_uniquePairs db op h)

/-- Witness for C2 at a concrete input: a register, a duplicate register, a
mark-ready and a delete starting from dbEx keep the pairs unique. -/
theorem C2_unique_pair_invariant_witness :
    uniquePairsB (runOps dbEx
      [Op.register (some (JVal.jstr "Carol")) (some (JVal.jstr "c@d.com"))
         (some (JVal.jstr "transcript")) true,
       Op.register (some (JVal.jstr "Carol")) (some (JVal.jstr "c@d.com"))
         (some (JVal.jstr "transcript")) true,
       Op.list,
       Op.ready (some (JVal.jnum 1)) true 3,
       Op.delete (some (JVal.jnum 2))]).students = true :=
  C2_unique_pair_invariant dbEx
    [Op.register (some (JVal.jstr "Carol")) (some (JVal.jstr "c@d.com"))
       (some (JVal.jstr "transcript")) true,
     Op.register (some (JVal.jstr "Carol")) (some (JVal.jstr "c@d.com"))
       (some (JVal.jstr "transcript")) true,
     Op.list,
     Op.ready (some (JVal.jnum 1)) true 3,
     Op.delete (some (JVal.jnum 2))] (by decide)


/-- POST /add-student never writes the notifications table. -/
theorem addStudent_notifications (db : DBState)
    (name email request_type : Option JVal) (emailOk : Bool) :
    (addStudent db name email request_type emailOk).1.notifications =
      db.notifications := by
  unfold addStudent
  dsimp only
  split
  · rfl
  split
  · rfl
  split
  · rfl
  split
  · rfl
  split
  · rfl
  · rfl

/-- DELETE /delete-student never writes the notifications table. -/
theorem deleteStudent_notifications (db : DBState)
    (student_id : Option JVal) :
    (deleteStudent db student_id).1.notifications = db.notifications := by
  unfold deleteStudent
  split
  · rfl
  split
  · rfl
  · rfl

/-- One operation only ever appends to the notifications table, and appends
something only when it is a mark-ready whose email send succeeded. -/
theorem stepOp_notifications (db : DBState) (op : Op) :
    ∃ added : List Notification,
      (stepOp db op).notifications = db.notifications ++ added ∧
      (added ≠ [] → ∃ sid now, op = Op.ready sid true now) := by
  cases op with
  | list => exact ⟨[], by simp [stepOp], fun hc => absurd rfl hc⟩
  | register name email request_type emailOk =>
      exact ⟨[], by simp [stepOp, addStudent_notifications],
        fun hc => absurd rfl hc⟩
  | delete student_id =>
      exact ⟨[], by simp [stepOp, deleteStudent_notifications],
        fun hc => absurd rfl hc⟩
  | ready student_id emailOk now =>
      by_cases ht : truthyOpt student_id = true
      case neg =>
        rw [Bool.not_eq_true] at ht
        exact ⟨[], by simp [stepOp, markReady, ht], fun hc => absurd rfl hc⟩
      case pos =>
        cases hf : db.students.find? (fun s => idMatches student_id s.id) with
        | none =>
            exact ⟨[], by simp [stepOp, markReady, ht, hf],
              fun hc => absurd rfl hc⟩
        | some st =>
            cases emailOk with
            | false =>
                exact ⟨[], by simp [stepOp, markReady, ht, hf],
                  fun hc => absurd rfl hc⟩
            | true =>
                exact ⟨[⟨coerceId student_id, true, now, st.request_type⟩],
                  by simp [stepOp, markReady, ht, hf],
                  fun _ => ⟨student_id, now, rfl⟩⟩

/-- Over a whole run the original notification rows survive as a prefix. -/
theorem runOps_notifications (db : DBState) (ops : List Op) :
    ∃ added : List Notification,
      (runOps db ops).notifications = db.notifications ++ added := by
  induction ops generalizing db with
  | nil => exact ⟨[], by simp [runOps]⟩
  | cons op rest ih =>
      rcases ih (stepOp db op) with ⟨a2, h2⟩
      rcases stepOp_notifications db op with ⟨a1, h1, _⟩
      refine ⟨a1 ++ a2, ?_⟩
      show (runOps (stepOp db op) rest).notifications = _
      rw [h2, h1, List.append_assoc]

/-- Claim C6: in every sequential execution of register, list, mark-ready
and delete, a notification row once created is never modified or removed
(the old table is always a prefix of the new one), and a step adds rows
only when it is a mark-ready call whose email send succeeded. -/
theorem C6_notifications_append_only (db : DBState) :
    (∀ op : Op, ∃ added : List Notification,
        (stepOp db op).notifications = db.notifications ++ added ∧
        (added ≠ [] → ∃ sid now, op = Op.ready sid true now)) ∧
    (∀ ops : List Op, ∃ added : List Notification,
        (runOps db ops).notifications = db.notifications ++ added) :=
  ⟨fun op => stepOp_notifications db op,
   fun ops => runOps_notifications db ops⟩

/-- Witness for C6 at a concrete input: a register step on dbEx leaves the
notifications table exactly as it was. -/
theorem C6_notifications_append_only_witness :
    (stepOp dbEx (Op.register (some (JVal.jstr "Carol"))
        (some (JVal.jstr "c@d.com")) (some (JVal.jstr "transcript"))
        true)).notifications = dbEx.notifications := by
  rcases (C6_notifications_append_only dbEx).1
      (Op.register (some (JVal.jstr "Carol")) (some (JVal.jstr "c@d.com"))
        (some (JVal.jstr "transcript")) true) with ⟨added, heq, himp⟩
  have hadded : added = [] := by
    by_contra hne
    rcases himp hne with ⟨sid, now, hop⟩
    exact Op.noConfusion hop
  rw [hadded, List.append_nil] at heq
  exact heq

end SMS
